import Mathlib

/-!
Shallow embedding of `src/streamlit_app.py` (class `MultimodalAIAssistant`).

The Python file is a UI orchestration layer over three opaque collaborators
(`AudioTranscriber`, `PDFChatbot`, `QwenVLDescriptionGenerator`).  We model:

* Streamlit session state (`st.session_state`) as the structure `SessionState`
  with exactly the keys the source reads/writes: `session_id`,
  `pdf_chat_messages`, `current_pdf_path`, `google_api_key`.
* the assistant object's three lazily constructed handles as `Assistant`.
* the opaque collaborators through an environment `Env` supplying, for each
  constructor, whether construction succeeds (a failing constructor models a
  raised exception, which the source catches), and for each collaborator
  method its returned text.  The collaborators are black boxes to this layer,
  so an arbitrary `Env` is the right level of abstraction.
* observable effects (UI toasts, display calls, the scratch-file write, and
  every call into a collaborator) as an ordered list of `Event`s returned
  alongside the new state.  Purely static rendering (`st.title`, the widget
  declarations themselves) is not recorded.

Python truthiness of the credential (`if not st.session_state.google_api_key`)
is falsy exactly for `None` and for the empty string; `pyTruthyStr` captures
that.  Widget inputs (`st.text_input`, `st.chat_input`, `st.file_uploader`,
`st.selectbox`, `st.button`) become explicit function arguments.
-/

/-- A chat transcript entry, as appended to `st.session_state.pdf_chat_messages`:
a dict with keys `role` and `content`. -/
structure Message where
  role : String
  content : String
deriving Repr, DecidableEq

/-- The Streamlit session state keys initialized in `MultimodalAIAssistant.__init__`. -/
structure SessionState where
  session_id : String
  pdf_chat_messages : List Message
  current_pdf_path : Option String
  google_api_key : Option String
deriving Repr, DecidableEq

/-- Opaque handle returned by `AudioTranscriber()`. -/
structure AudioTranscriber
deriving Repr, DecidableEq

/-- Opaque handle returned by `PDFChatbot(pdf_path=..., google_api_key=...)`:
we record the construction arguments. -/
structure PDFChatbot where
  pdf_path : String
  google_api_key : String
deriving Repr, DecidableEq

/-- Opaque handle returned by `QwenVLDescriptionGenerator()`. -/
structure QwenVLDescriptionGenerator
deriving Repr, DecidableEq

/-- The three instance attributes of `MultimodalAIAssistant`, set to `None`
in `__init__` and loaded on demand. -/
structure Assistant where
  audio_transcriber : Option AudioTranscriber
  pdf_chatbot : Option PDFChatbot
  image_description_generator : Option QwenVLDescriptionGenerator
deriving Repr, DecidableEq

/-- Behaviour of the three out-of-scope collaborator modules.  A `false`
constructor flag models the constructor raising an exception (caught by the
source); the `Result` functions give the texts the collaborator methods
return. -/
structure Env where
  audioCtorOk : Bool
  pdfCtorOk : String → String → Bool
  imageCtorOk : Bool
  chatAnswer : String → String → String
  transcribeResult : String → String
  describeResult : String → String

/-- Observable effects of one interaction: Streamlit toasts/output calls, the
scratch write of the uploaded bytes, and each call into a collaborator.
(The Python error toasts interpolate the exception text; the exception is
opaque here, so only the fixed message prefix is recorded.) -/
inductive Event where
  | warning (msg : String)
  | error (msg : String)
  | success (msg : String)
  | subheader (text : String)
  | write (text : String)
  | markdown (text : String)
  | saveScratch (path : String) (bytes : String)
  | ctorAudio
  | ctorPDF (pdf_path : String) (key : String)
  | ctorImage
  | callChat (prompt : String) (sid : String)
  | callTranscribe (path : String)
  | callDescribe (path : String)
  | callClearHistory (sid : String)
deriving Repr, DecidableEq

/-- Events that construct or call a collaborator (anything that touches one
of the three external modules). -/
def Event.isCollab : Event → Bool
  | .ctorAudio => true
  | .ctorPDF _ _ => true
  | .ctorImage => true
  | .callChat _ _ => true
  | .callTranscribe _ => true
  | .callDescribe _ => true
  | .callClearHistory _ => true
  | _ => false

/-- Python truthiness of an optional string: `None` and `""` are falsy. -/
def pyTruthyStr (s : Option String) : Bool :=
  match s with
  | none => false
  | some v => v != ""

/-- `MultimodalAIAssistant.load_audio_transcriber` (lines 37-46): construct
lazily, on success store the handle and toast success, on exception toast an
error and leave the handle as it was. -/
def load_audio_transcriber (env : Env) (a : Assistant) : Assistant × List Event :=
  if a.audio_transcriber.isNone then
    if env.audioCtorOk then
      ({ a with audio_transcriber := some ⟨⟩ },
       [Event.ctorAudio, Event.success "Audio Transcriber initialized successfully!"])
    else
      (a, [Event.ctorAudio, Event.error "Failed to load Audio Transcriber"])
  else
    (a, [])

/-- `MultimodalAIAssistant.load_image_description_generator` (lines 76-85),
mirror of the audio loader. -/
def load_image_description_generator (env : Env) (a : Assistant) : Assistant × List Event :=
  if a.image_description_generator.isNone then
    if env.imageCtorOk then
      ({ a with image_description_generator := some ⟨⟩ },
       [Event.ctorImage, Event.success "Image Description Generator initialized successfully!"])
    else
      (a, [Event.ctorImage, Event.error "Failed to load Image Description Generator"])
  else
    (a, [])

/-- `MultimodalAIAssistant.load_pdf_chatbot` (lines 48-74).  The source first
early-returns with a warning when the credential is falsy; then, inside the
`try`, clears the transcript and updates `current_pdf_path` when the path
changed (plain assignments, they cannot raise) and only then constructs
`PDFChatbot`, whose failure is caught and toasts an error.  Returns the new
session state, the assistant (whose `pdf_chatbot` attribute is assigned on
the success path), the function's return value, and the events. -/
def load_pdf_chatbot (env : Env) (s : SessionState) (a : Assistant) (pdf_path : String) :
    SessionState × Assistant × Option PDFChatbot × List Event :=
  if pyTruthyStr s.google_api_key then
    let key := s.google_api_key.getD ""
    let s1 := if s.current_pdf_path ≠ some pdf_path then
        { s with pdf_chat_messages := [], current_pdf_path := some pdf_path }
      else s
    if env.pdfCtorOk pdf_path key then
      let bot : PDFChatbot := ⟨pdf_path, key⟩
      (s1, { a with pdf_chatbot := some bot }, some bot,
       [Event.ctorPDF pdf_path key, Event.success "PDF Chatbot initialized successfully!"])
    else
      (s1, a, none,
       [Event.ctorPDF pdf_path key, Event.error "Failed to load PDF Chatbot"])
  else
    (s, a, none, [Event.warning "Please enter Google API key first!"])

/-- `MultimodalAIAssistant.render_sidebar` (lines 87-108).  `api_key_input`
is the value returned by the masked text input; a non-empty value is stored,
an empty one leaves the stored credential untouched.  When the clear button
was clicked, an existing Q&A handle is told to clear its per-session memory
and the local transcript is always emptied. -/
def render_sidebar (s : SessionState) (a : Assistant)
    (api_key_input : String) (clear_clicked : Bool) : SessionState × List Event :=
  let s1 := if api_key_input != "" then { s with google_api_key := some api_key_input } else s
  if clear_clicked then
    let ev1 := if a.pdf_chatbot.isSome then [Event.callClearHistory s1.session_id] else []
    ({ s1 with pdf_chat_messages := [] },
     ev1 ++ [Event.success "Conversation history cleared!"])
  else
    (s1, [])

/-- `MultimodalAIAssistant.render_pdf_chat_interface` (lines 110-151).
`prompt` is what `st.chat_input` returned (`none` when no input was
submitted; the walrus `if prompt := ...` is falsy also for the empty
string).  The method assigns `self.pdf_chatbot = self.load_pdf_chatbot(...)`,
returns early when that is `None`, replays the stored transcript, then for a
truthy prompt appends the user turn, calls `chat`, and appends the answer. -/
def render_pdf_chat_interface (env : Env) (s : SessionState) (a : Assistant)
    (file_path : String) (prompt : Option String) :
    SessionState × Assistant × List Event :=
  let r := load_pdf_chatbot env s a file_path
  let s1 := r.1
  let a2 := { r.2.1 with pdf_chatbot := r.2.2.1 }
  let ev1 := r.2.2.2
  match r.2.2.1 with
  | none => (s1, a2, ev1)
  | some _ =>
    let ev2 := s1.pdf_chat_messages.map (fun m => Event.markdown m.content)
    match prompt with
    | some p =>
      if p != "" then
        let s2 := { s1 with
          pdf_chat_messages := s1.pdf_chat_messages ++ [(⟨"user", p⟩ : Message)] }
        let answer := env.chatAnswer p s1.session_id
        let s3 := { s2 with
          pdf_chat_messages := s2.pdf_chat_messages ++ [(⟨"assistant", answer⟩ : Message)] }
        (s3, a2,
         ev1 ++ ev2 ++ [Event.markdown p, Event.callChat p s1.session_id, Event.markdown answer])
      else
        (s1, a2, ev1 ++ ev2)
    | none => (s1, a2, ev1 ++ ev2)

/-- Index of the last `.` in a character list, if any. -/
def lastDotIdx (cs : List Char) : Option Nat :=
  (List.range cs.length).foldl
    (fun acc i => if cs.get? i = some '.' then some i else acc) none

/-- The extension part of `os.path.splitext(name)[1]` for a bare filename
(Streamlit upload names carry no directory part): the suffix from the last
dot, unless every character before that dot is itself a dot (so `.bashrc`
has no extension). -/
def splitext_ext (p : String) : String :=
  let cs := p.toList
  match lastDotIdx cs with
  | none => ""
  | some i => if (cs.take i).any (fun c => c != '.') then String.mk (cs.drop i) else ""

/-- `str.lower()` as applied to the extension (ASCII lower-casing suffices
for the extension strings this layer compares against). -/
def strLower (s : String) : String :=
  String.mk (s.toList.map Char.toLower)

/-- One uploaded file: its client-side name and its raw bytes
(`uploaded_file.getvalue()`, modelled as an opaque string). -/
structure UploadedFile where
  name : String
  bytes : String
deriving Repr, DecidableEq

/-- The audio/video extensions of the transcription branch (lines 192, 199). -/
def audioExts : List String := [".mp3", ".wav", ".mp4", ".avi"]

/-- The image extensions of the description branch (lines 190, 206). -/
def imageExts : List String := [".jpg", ".jpeg", ".png"]

/-- The auto-detect chain of `main_ui` (lines 187-193): map the lower-cased
extension to a concrete mode; an unmatched extension leaves
`processing_mode` as the unchanged string `"Auto Detect"`. -/
def autoDetectMode (file_extension : String) : String :=
  if file_extension ∈ [".pdf"] then "Question Answering"
  else if file_extension ∈ imageExts then "Image Description"
  else if file_extension ∈ audioExts then "Transcription"
  else "Auto Detect"

/-- The effective mode after the auto-detect step. -/
def resolveMode (processing_mode file_extension : String) : String :=
  if processing_mode = "Auto Detect" then autoDetectMode file_extension
  else processing_mode

/-- `MultimodalAIAssistant.main_ui` (lines 153-211).  With no upload nothing
happens.  With an upload the bytes are written to `temp/<name>`, the
extension is computed and lower-cased, auto-detect resolves the mode, and
exactly one of the three guarded branches (mode AND matching extension) runs;
otherwise the method falls through with no further action. -/
def main_ui (env : Env) (s : SessionState) (a : Assistant)
    (uploaded_file : Option UploadedFile) (selected_mode : String)
    (prompt : Option String) : SessionState × Assistant × List Event :=
  match uploaded_file with
  | none => (s, a, [])
  | some f =>
    let file_path := "temp/" ++ f.name
    let ev0 := [Event.saveScratch file_path f.bytes]
    let file_extension := strLower (splitext_ext f.name)
    let processing_mode := resolveMode selected_mode file_extension
    if processing_mode = "Question Answering" ∧ file_extension = ".pdf" then
      let r := render_pdf_chat_interface env s a file_path prompt
      (r.1, r.2.1, ev0 ++ r.2.2)
    else if processing_mode = "Transcription" ∧ file_extension ∈ audioExts then
      let r := load_audio_transcriber env a
      match r.1.audio_transcriber with
      | some _ =>
        let transcription := env.transcribeResult file_path
        (s, r.1, ev0 ++ r.2 ++
          [Event.callTranscribe file_path, Event.subheader "Transcription",
           Event.write transcription])
      | none => (s, r.1, ev0 ++ r.2)
    else if processing_mode = "Image Description" ∧ file_extension ∈ imageExts then
      let r := load_image_description_generator env a
      match r.1.image_description_generator with
      | some _ =>
        let description := env.describeResult file_path
        (s, r.1, ev0 ++ r.2 ++
          [Event.callDescribe file_path, Event.subheader "Image Description",
           Event.write description])
      | none => (s, r.1, ev0 ++ r.2)
    else
      (s, a, ev0)

/-- No event in the list constructs or calls a collaborator. -/
def collabFree (evs : List Event) : Bool :=
  evs.all (fun e => ! e.isCollab)

/-! ## Witness fixtures: one concrete environment where every collaborator
works, one where every constructor raises, and concrete states. -/

/-- Environment in which all three collaborators construct and answer. -/
def envW : Env :=
  { audioCtorOk := true
    pdfCtorOk := fun _ _ => true
    imageCtorOk := true
    chatAnswer := fun p _ => p ++ " answered"
    transcribeResult := fun _ => "transcribed text"
    describeResult := fun _ => "described image" }

/-- Environment in which every collaborator constructor raises. -/
def envWfail : Env :=
  { audioCtorOk := false
    pdfCtorOk := fun _ _ => false
    imageCtorOk := false
    chatAnswer := fun p _ => p ++ " answered"
    transcribeResult := fun _ => "transcribed text"
    describeResult := fun _ => "described image" }

/-- A fresh session that already holds a credential. -/
def sW : SessionState :=
  { session_id := "sid-1"
    pdf_chat_messages := []
    current_pdf_path := none
    google_api_key := some "key-1" }

/-- The same session without a credential. -/
def sWnokey : SessionState := { sW with google_api_key := none }

/-- A fresh assistant: no handle loaded yet. -/
def aW : Assistant :=
  { audio_transcriber := none
    pdf_chatbot := none
    image_description_generator := none }

/-- An assistant holding a Q&A handle. -/
def aWbot : Assistant :=
  { aW with pdf_chatbot := some ⟨"temp/doc.pdf", "key-1"⟩ }

/-! ## Helper lemmas shared between claims -/

/-- `load_pdf_chatbot` never writes the credential key. -/
theorem load_pdf_chatbot_key_eq (env : Env) (s : SessionState) (a : Assistant)
    (path : String) :
    (load_pdf_chatbot env s a path).1.google_api_key = s.google_api_key := by
  unfold load_pdf_chatbot
  by_cases hkey : pyTruthyStr s.google_api_key
  · by_cases hch : s.current_pdf_path ≠ some path
    · by_cases hc : env.pdfCtorOk path (s.google_api_key.getD "") <;>
        simp [hkey, hch, hc]
    · by_cases hc : env.pdfCtorOk path (s.google_api_key.getD "") <;>
        simp [hkey, hch, hc]
  · simp [hkey]

/-- `load_pdf_chatbot` never touches the session identifier. -/
theorem load_pdf_chatbot_sid_eq (env : Env) (s : SessionState) (a : Assistant)
    (path : String) :
    (load_pdf_chatbot env s a path).1.session_id = s.session_id := by
  unfold load_pdf_chatbot
  by_cases hkey : pyTruthyStr s.google_api_key
  · by_cases hch : s.current_pdf_path ≠ some path
    · by_cases hc : env.pdfCtorOk path (s.google_api_key.getD "") <;>
        simp [hkey, hch, hc]
    · by_cases hc : env.pdfCtorOk path (s.google_api_key.getD "") <;>
        simp [hkey, hch, hc]
  · simp [hkey]

/-- `render_pdf_chat_interface` never writes the credential key. -/
theorem render_pdf_key_eq (env : Env) (s : SessionState) (a : Assistant)
    (path : String) (prompt : Option String) :
    (render_pdf_chat_interface env s a path prompt).1.google_api_key
      = s.google_api_key := by
  unfold render_pdf_chat_interface
  rcases hr : load_pdf_chatbot env s a path with ⟨s1, a1, ret, evs⟩
  have h1 : s1.google_api_key = s.google_api_key := by
    have := load_pdf_chatbot_key_eq env s a path
    rw [hr] at this; exact this
  cases ret with
  | none => simpa using h1
  | some bot =>
    cases prompt with
    | none => simpa using h1
    | some p =>
      by_cases hp : p != "" <;> simp [hp, h1]

/-! ## Claims -/

/-- C1: under Auto Detect the resolved processing mode is exactly
Question Answering for `.pdf`, Image Description for `.jpg`/`.jpeg`/`.png`,
Transcription for `.mp3`/`.wav`/`.mp4`/`.avi`; for any other extension
`main_ui` performs no action beyond the scratch write — state unchanged and
the only event is the scratch save (in particular no collaborator event). -/
theorem C1_auto_detect_routing (env : Env) (s : SessionState) (a : Assistant)
    (f : UploadedFile) (prompt : Option String) :
    (strLower (splitext_ext f.name) = ".pdf" →
      resolveMode "Auto Detect" (strLower (splitext_ext f.name)) = "Question Answering") ∧
    (strLower (splitext_ext f.name) ∈ imageExts →
      resolveMode "Auto Detect" (strLower (splitext_ext f.name)) = "Image Description") ∧
    (strLower (splitext_ext f.name) ∈ audioExts →
      resolveMode "Auto Detect" (strLower (splitext_ext f.name)) = "Transcription") ∧
    (strLower (splitext_ext f.name) ∉ ([".pdf"] ++ imageExts ++ audioExts) →
      main_ui env s a (some f) "Auto Detect" prompt
        = (s, a, [Event.saveScratch ("temp/" ++ f.name) f.bytes])) := by
  refine ⟨?_, ?_, ?_, ?_⟩
  · intro h
    simp [resolveMode, autoDetectMode, h]
  · intro h
    simp only [imageExts, List.mem_cons, List.not_mem_nil, or_false] at h
    rcases h with h | h | h <;> rw [h] <;> decide
  · intro h
    simp only [audioExts, List.mem_cons, List.not_mem_nil, or_false] at h
    rcases h with h | h | h | h <;> rw [h] <;> decide
  · intro h
    simp only [List.append_assoc, List.cons_append, List.nil_append, imageExts, audioExts,
      List.mem_cons, List.not_mem_nil, or_false] at h
    push_neg at h
    obtain ⟨h1, h2, h3, h4, h5, h6, h7, h8⟩ := h
    simp [main_ui, resolveMode, autoDetectMode, audioExts, imageExts,
      h1, h2, h3, h4, h5, h6, h7, h8]

/-- Witness for C1: `doc.pdf` resolves to Question Answering, and an upload
named `notes.txt` under Auto Detect leaves everything unchanged except the
scratch write. -/
theorem C1_auto_detect_routing_w :
    resolveMode "Auto Detect" (strLower (splitext_ext "doc.pdf")) = "Question Answering" ∧
    main_ui envW sW aW (some ⟨"notes.txt", "b"⟩) "Auto Detect" none
      = (sW, aW, [Event.saveScratch "temp/notes.txt" "b"]) :=
  ⟨(C1_auto_detect_routing envW sW aW ⟨"doc.pdf", "b"⟩ none).1 (by decide),
   (C1_auto_detect_routing envW sW aW ⟨"notes.txt", "b"⟩ none).2.2.2 (by decide)⟩

/-- C2: with a credential present and a constructor that succeeds, changing
the stored document path clears the transcript (and records the new path) in
the state produced by `load_pdf_chatbot` — i.e. before any question is
answered — and a completed question-answer turn extends the post-load
transcript by exactly the two entries user-then-assistant. -/
theorem C2_transcript_clear_and_growth (env : Env) (s : SessionState) (a : Assistant)
    (path p : String)
    (hkey : pyTruthyStr s.google_api_key = true)
    (hctor : env.pdfCtorOk path (s.google_api_key.getD "") = true)
    (hp : p ≠ "") :
    (s.current_pdf_path ≠ some path →
      (load_pdf_chatbot env s a path).1.pdf_chat_messages = [] ∧
      (load_pdf_chatbot env s a path).1.current_pdf_path = some path ∧
      (render_pdf_chat_interface env s a path (some p)).1.pdf_chat_messages
        = ([⟨"user", p⟩, ⟨"assistant", env.chatAnswer p s.session_id⟩] : List Message)) ∧
    (render_pdf_chat_interface env s a path (some p)).1.pdf_chat_messages
      = (load_pdf_chatbot env s a path).1.pdf_chat_messages
        ++ ([⟨"user", p⟩, ⟨"assistant", env.chatAnswer p s.session_id⟩] : List Message) := by
  constructor
  · intro hch
    refine ⟨?_, ?_, ?_⟩
    · simp [load_pdf_chatbot, hkey, hch, hctor]
    · simp [load_pdf_chatbot, hkey, hch, hctor]
    · simp [render_pdf_chat_interface, load_pdf_chatbot, hkey, hch, hctor, hp]
  · by_cases hch : s.current_pdf_path ≠ some path
    · simp [render_pdf_chat_interface, load_pdf_chatbot, hkey, hch, hctor, hp]
    · simp [render_pdf_chat_interface, load_pdf_chatbot, hkey, hch, hctor, hp]

/-- Witness for C2 at a fresh session asking one question over `temp/doc.pdf`. -/
theorem C2_transcript_clear_and_growth_w :
    (load_pdf_chatbot envW sW aW "temp/doc.pdf").1.pdf_chat_messages = [] ∧
    (render_pdf_chat_interface envW sW aW "temp/doc.pdf" (some "hi")).1.pdf_chat_messages
      = ([⟨"user", "hi"⟩, ⟨"assistant", "hi answered"⟩] : List Message) := by
  have h := C2_transcript_clear_and_growth envW sW aW "temp/doc.pdf" "hi"
    (by decide) (by decide) (by decide)
  have h2 := h.1 (by decide)
  exact ⟨h2.1, h2.2.2⟩

/-- C3: with the credential unset (or empty), the question-answering flow
only warns: `load_pdf_chatbot` returns `None` without constructing anything
or touching state, and `render_pdf_chat_interface` aborts with the session
state unchanged, the warning as its only event, and the handle attribute
left unset. -/
theorem C3_missing_credential_aborts (env : Env) (s : SessionState) (a : Assistant)
    (path : String) (prompt : Option String)
    (hkey : pyTruthyStr s.google_api_key = false) :
    load_pdf_chatbot env s a path
      = (s, a, none, [Event.warning "Please enter Google API key first!"]) ∧
    (render_pdf_chat_interface env s a path prompt).1 = s ∧
    (render_pdf_chat_interface env s a path prompt).2.1 = { a with pdf_chatbot := none } ∧
    (render_pdf_chat_interface env s a path prompt).2.2
      = [Event.warning "Please enter Google API key first!"] := by
  refine ⟨?_, ?_, ?_, ?_⟩ <;>
    simp [load_pdf_chatbot, render_pdf_chat_interface, hkey]

/-- Witness for C3 on the credential-less session. -/
theorem C3_missing_credential_aborts_w :
    load_pdf_chatbot envW sWnokey aW "temp/doc.pdf"
      = (sWnokey, aW, none, [Event.warning "Please enter Google API key first!"]) ∧
    (render_pdf_chat_interface envW sWnokey aW "temp/doc.pdf" (some "hi")).1 = sWnokey := by
  have h := C3_missing_credential_aborts envW sWnokey aW "temp/doc.pdf" (some "hi") (by decide)
  exact ⟨h.1, h.2.1⟩

/-- C4: the clear-history action always resets the local transcript to empty,
whatever the assistant's handles are, and when a Q&A handle exists the
handle's own `clear_history` is called with the session identifier. -/
theorem C4_clear_history (s : SessionState) (a : Assistant) (api_key_input : String)
    (hb : a.pdf_chatbot.isSome = true) :
    (render_sidebar s a api_key_input true).1.pdf_chat_messages = [] ∧
    ((render_sidebar s { a with pdf_chatbot := none } api_key_input true).1.pdf_chat_messages
      = []) ∧
    Event.callClearHistory s.session_id ∈ (render_sidebar s a api_key_input true).2 := by
  refine ⟨?_, ?_, ?_⟩
  · by_cases hin : api_key_input != "" <;> simp [render_sidebar, hin]
  · by_cases hin : api_key_input != "" <;> simp [render_sidebar, hin]
  · by_cases hin : api_key_input != "" <;> simp [render_sidebar, hin, hb]

/-- Witness for C4 with an existing Q&A handle. -/
theorem C4_clear_history_w :
    (render_sidebar sW aWbot "" true).1.pdf_chat_messages = [] ∧
    Event.callClearHistory "sid-1" ∈ (render_sidebar sW aWbot "" true).2 := by
  have h := C4_clear_history sW aWbot "" (by decide)
  exact ⟨h.1, h.2.2⟩

/-- C5: an upload routed to the transcription or image-description branch
leaves the chat transcript and the current document path untouched; the
result text is displayed directly via a `write` event (whenever the handle
is available: already loaded, or its constructor succeeds), with no
transcript entry recorded. -/
theorem C5_display_only_flows (env : Env) (s : SessionState) (a : Assistant)
    (f : UploadedFile) (prompt : Option String) (m : String)
    (h : (resolveMode m (strLower (splitext_ext f.name)) = "Transcription"
            ∧ strLower (splitext_ext f.name) ∈ audioExts)
       ∨ (resolveMode m (strLower (splitext_ext f.name)) = "Image Description"
            ∧ strLower (splitext_ext f.name) ∈ imageExts)) :
    (main_ui env s a (some f) m prompt).1.pdf_chat_messages = s.pdf_chat_messages ∧
    (main_ui env s a (some f) m prompt).1.current_pdf_path = s.current_pdf_path ∧
    (resolveMode m (strLower (splitext_ext f.name)) = "Transcription" →
      (a.audio_transcriber.isSome = true ∨ env.audioCtorOk = true) →
      Event.write (env.transcribeResult ("temp/" ++ f.name))
        ∈ (main_ui env s a (some f) m prompt).2.2) ∧
    (resolveMode m (strLower (splitext_ext f.name)) = "Image Description" →
      (a.image_description_generator.isSome = true ∨ env.imageCtorOk = true) →
      Event.write (env.describeResult ("temp/" ++ f.name))
        ∈ (main_ui env s a (some f) m prompt).2.2) := by
  rcases h with ⟨hm, he⟩ | ⟨hm, he⟩
  · have hQ : ¬(resolveMode m (strLower (splitext_ext f.name)) = "Question Answering"
        ∧ strLower (splitext_ext f.name) = ".pdf") := by
      rintro ⟨h1, -⟩
      rw [hm] at h1
      exact absurd h1 (by decide)
    refine ⟨?_, ?_, ?_, ?_⟩
    · cases ha : a.audio_transcriber <;> cases hb : env.audioCtorOk <;>
        simp [main_ui, hQ, hm, he, load_audio_transcriber, ha, hb]
    · cases ha : a.audio_transcriber <;> cases hb : env.audioCtorOk <;>
        simp [main_ui, hQ, hm, he, load_audio_transcriber, ha, hb]
    · intro hmt havail
      cases ha : a.audio_transcriber with
      | some t => simp [main_ui, hQ, hm, he, load_audio_transcriber, ha]
      | none =>
        cases hb : env.audioCtorOk with
        | true => simp [main_ui, hQ, hm, he, load_audio_transcriber, ha, hb]
        | false =>
          rcases havail with hav | hav
          · rw [ha] at hav; exact absurd hav (by decide)
          · rw [hb] at hav; exact absurd hav (by decide)
    · intro hmi hav
      rw [hm] at hmi
      exact absurd hmi (by decide)
  · have hQ : ¬(resolveMode m (strLower (splitext_ext f.name)) = "Question Answering"
        ∧ strLower (splitext_ext f.name) = ".pdf") := by
      rintro ⟨h1, -⟩
      rw [hm] at h1
      exact absurd h1 (by decide)
    have hT : ¬(resolveMode m (strLower (splitext_ext f.name)) = "Transcription"
        ∧ strLower (splitext_ext f.name) ∈ audioExts) := by
      rintro ⟨h1, -⟩
      rw [hm] at h1
      exact absurd h1 (by decide)
    refine ⟨?_, ?_, ?_, ?_⟩
    · cases ha : a.image_description_generator <;> cases hb : env.imageCtorOk <;>
        simp [main_ui, hQ, hT, hm, he, load_image_description_generator, ha, hb]
    · cases ha : a.image_description_generator <;> cases hb : env.imageCtorOk <;>
        simp [main_ui, hQ, hT, hm, he, load_image_description_generator, ha, hb]
    · intro hmt hav
      rw [hm] at hmt
      exact absurd hmt (by decide)
    · intro hmi havail
      cases ha : a.image_description_generator with
      | some t => simp [main_ui, hQ, hT, hm, he, load_image_description_generator, ha]
      | none =>
        cases hb : env.imageCtorOk with
        | true => simp [main_ui, hQ, hT, hm, he, load_image_description_generator, ha, hb]
        | false =>
          rcases havail with hav | hav
          · rw [ha] at hav; exact absurd hav (by decide)
          · rw [hb] at hav; exact absurd hav (by decide)

/-- Witness for C5: `clip.mp4` under Auto Detect is routed to transcription,
leaves the transcript and document path untouched, and displays the result. -/
theorem C5_display_only_flows_w :
    (main_ui envW sW aW (some ⟨"clip.mp4", "b"⟩) "Auto Detect" none).1.pdf_chat_messages
      = sW.pdf_chat_messages ∧
    Event.write "transcribed text"
      ∈ (main_ui envW sW aW (some ⟨"clip.mp4", "b"⟩) "Auto Detect" none).2.2 := by
  have h := C5_display_only_flows envW sW aW ⟨"clip.mp4", "b"⟩ none "Auto Detect"
    (Or.inl (by decide))
  exact ⟨h.1, h.2.2.1 (by decide) (Or.inr (by decide))⟩

/-- C6: when the (resolved) mode and the extension satisfy none of the three
branch guards — e.g. Question Answering over a non-PDF, or Transcription
over a `.pdf` — `main_ui` changes no state and emits only the scratch-file
write: no collaborator event and no warning/error event. -/
theorem C6_mode_extension_mismatch_noop (env : Env) (s : SessionState) (a : Assistant)
    (f : UploadedFile) (prompt : Option String) (m : String)
    (h1 : ¬(resolveMode m (strLower (splitext_ext f.name)) = "Question Answering"
            ∧ strLower (splitext_ext f.name) = ".pdf"))
    (h2 : ¬(resolveMode m (strLower (splitext_ext f.name)) = "Transcription"
            ∧ strLower (splitext_ext f.name) ∈ audioExts))
    (h3 : ¬(resolveMode m (strLower (splitext_ext f.name)) = "Image Description"
            ∧ strLower (splitext_ext f.name) ∈ imageExts)) :
    main_ui env s a (some f) m prompt
      = (s, a, [Event.saveScratch ("temp/" ++ f.name) f.bytes]) := by
  simp [main_ui, h1, h2, h3]

/-- Witness for C6: Transcription explicitly selected for a `.pdf` upload is
a silent no-op beyond the scratch write. -/
theorem C6_mode_extension_mismatch_noop_w :
    main_ui envW sW aW (some ⟨"doc.pdf", "b"⟩) "Transcription" none
      = (sW, aW, [Event.saveScratch "temp/doc.pdf" "b"]) :=
  C6_mode_extension_mismatch_noop envW sW aW ⟨"doc.pdf", "b"⟩ none "Transcription"
    (by decide) (by decide) (by decide)

/-- C7: a collaborator constructor that raises is caught: an error toast is
emitted, the corresponding handle stays/ends up unset, and a repeated
invocation again reports the error instead of crashing.  For the Q&A flow
the interface method assigns its return value, so the handle attribute is
`none` after the failure. -/
theorem C7_ctor_failure_caught (env : Env) (s : SessionState) (a : Assistant)
    (path : String) (prompt : Option String)
    (haud : env.audioCtorOk = false)
    (himg : env.imageCtorOk = false)
    (hkey : pyTruthyStr s.google_api_key = true)
    (hpdf : env.pdfCtorOk path (s.google_api_key.getD "") = false)
    (ha0 : a.audio_transcriber = none)
    (hi0 : a.image_description_generator = none) :
    load_audio_transcriber env a
      = (a, [Event.ctorAudio, Event.error "Failed to load Audio Transcriber"]) ∧
    load_audio_transcriber env (load_audio_transcriber env a).1
      = (a, [Event.ctorAudio, Event.error "Failed to load Audio Transcriber"]) ∧
    load_image_description_generator env a
      = (a, [Event.ctorImage, Event.error "Failed to load Image Description Generator"]) ∧
    (load_pdf_chatbot env s a path).2.2.1 = none ∧
    Event.error "Failed to load PDF Chatbot" ∈ (load_pdf_chatbot env s a path).2.2.2 ∧
    (render_pdf_chat_interface env s a path prompt).2.1.pdf_chatbot = none := by
  refine ⟨?_, ?_, ?_, ?_, ?_, ?_⟩
  · simp [load_audio_transcriber, ha0, haud]
  · simp [load_audio_transcriber, ha0, haud]
  · simp [load_image_description_generator, hi0, himg]
  · by_cases hch : s.current_pdf_path ≠ some path <;>
      simp [load_pdf_chatbot, hkey, hch, hpdf]
  · by_cases hch : s.current_pdf_path ≠ some path <;>
      simp [load_pdf_chatbot, hkey, hch, hpdf]
  · by_cases hch : s.current_pdf_path ≠ some path <;>
      simp [render_pdf_chat_interface, load_pdf_chatbot, hkey, hch, hpdf]

/-- Witness for C7 in the environment where every constructor raises. -/
theorem C7_ctor_failure_caught_w :
    load_audio_transcriber envWfail aW
      = (aW, [Event.ctorAudio, Event.error "Failed to load Audio Transcriber"]) ∧
    (render_pdf_chat_interface envWfail sW aW "temp/doc.pdf" none).2.1.pdf_chatbot
      = none := by
  have h := C7_ctor_failure_caught envWfail sW aW "temp/doc.pdf" none
    (by decide) (by decide) (by decide) (by decide) (by decide) (by decide)
  exact ⟨h.1, h.2.2.2.2.2⟩

/-- C8: the transcription and image-description handles are constructed
lazily at most once per session: once a handle is present the loader is a
no-op emitting no events (so no further constructor call), and after a first
successful construction the next load reuses the handle unchanged. -/
theorem C8_lazy_single_construction (env : Env) (a : Assistant) :
    (a.audio_transcriber.isSome = true → load_audio_transcriber env a = (a, [])) ∧
    (a.image_description_generator.isSome = true →
      load_image_description_generator env a = (a, [])) ∧
    (env.audioCtorOk = true → a.audio_transcriber = none →
      (load_audio_transcriber env a).1.audio_transcriber = some ⟨⟩ ∧
      load_audio_transcriber env (load_audio_transcriber env a).1
        = ((load_audio_transcriber env a).1, [])) ∧
    (env.imageCtorOk = true → a.image_description_generator = none →
      (load_image_description_generator env a).1.image_description_generator = some ⟨⟩ ∧
      load_image_description_generator env (load_image_description_generator env a).1
        = ((load_image_description_generator env a).1, [])) := by
  refine ⟨?_, ?_, ?_, ?_⟩
  · intro hs
    cases ha : a.audio_transcriber with
    | none => rw [ha] at hs; exact absurd hs (by decide)
    | some t => simp [load_audio_transcriber, ha]
  · intro hs
    cases hi : a.image_description_generator with
    | none => rw [hi] at hs; exact absurd hs (by decide)
    | some t => simp [load_image_description_generator, hi]
  · intro hok ha
    simp [load_audio_transcriber, ha, hok]
  · intro hok hi
    simp [load_image_description_generator, hi, hok]

/-- Witness for C8: a fresh assistant constructs once, then reuses. -/
theorem C8_lazy_single_construction_w :
    (load_audio_transcriber envW aW).1.audio_transcriber = some ⟨⟩ ∧
    load_audio_transcriber envW (load_audio_transcriber envW aW).1
      = ((load_audio_transcriber envW aW).1, []) :=
  (C8_lazy_single_construction envW aW).2.2.1 (by decide) (by decide)

/-- C9: the failure path of `load_pdf_chatbot` is not atomic: when the
uploaded path differs from the stored one and the `PDFChatbot` constructor
then raises, the transcript has already been cleared and the stored path
already updated, while the returned handle is `None` (and the interface
method therefore leaves the handle attribute unset). -/
theorem C9_failure_not_atomic (env : Env) (s : SessionState) (a : Assistant)
    (path : String)
    (hkey : pyTruthyStr s.google_api_key = true)
    (hch : s.current_pdf_path ≠ some path)
    (hfail : env.pdfCtorOk path (s.google_api_key.getD "") = false) :
    (load_pdf_chatbot env s a path).1.pdf_chat_messages = [] ∧
    (load_pdf_chatbot env s a path).1.current_pdf_path = some path ∧
    (load_pdf_chatbot env s a path).2.2.1 = none ∧
    (render_pdf_chat_interface env s a path none).1.pdf_chat_messages = [] ∧
    (render_pdf_chat_interface env s a path none).1.current_pdf_path = some path ∧
    (render_pdf_chat_interface env s a path none).2.1.pdf_chatbot = none := by
  refine ⟨?_, ?_, ?_, ?_, ?_, ?_⟩ <;>
    simp [load_pdf_chatbot, render_pdf_chat_interface, hkey, hch, hfail]

/-- Witness for C9: a session with a transcript over one document, then a
failing load of a different document. -/
theorem C9_failure_not_atomic_w :
    (load_pdf_chatbot envWfail
        { sW with pdf_chat_messages := [⟨"user", "old"⟩],
                  current_pdf_path := some "temp/old.pdf" }
        aW "temp/new.pdf").1.pdf_chat_messages = [] ∧
    (load_pdf_chatbot envWfail
        { sW with pdf_chat_messages := [⟨"user", "old"⟩],
                  current_pdf_path := some "temp/old.pdf" }
        aW "temp/new.pdf").1.current_pdf_path = some "temp/new.pdf" := by
  have h := C9_failure_not_atomic envWfail
    { sW with pdf_chat_messages := [⟨"user", "old"⟩],
              current_pdf_path := some "temp/old.pdf" }
    aW "temp/new.pdf" (by decide) (by decide) (by decide)
  exact ⟨h.1, h.2.1⟩

/-- `main_ui` never writes the credential key. -/
theorem main_ui_key_eq (env : Env) (s : SessionState) (a : Assistant)
    (f : Option UploadedFile) (m : String) (prompt : Option String) :
    (main_ui env s a f m prompt).1.google_api_key = s.google_api_key := by
  cases f with
  | none => rfl
  | some fl =>
    by_cases hQ : (resolveMode m (strLower (splitext_ext fl.name)) = "Question Answering"
        ∧ strLower (splitext_ext fl.name) = ".pdf")
    · obtain ⟨hQ1, hQ2⟩ := hQ
      rw [hQ2] at hQ1
      simp [main_ui, hQ1, hQ2, render_pdf_key_eq]
    · by_cases hT : (resolveMode m (strLower (splitext_ext fl.name)) = "Transcription"
          ∧ strLower (splitext_ext fl.name) ∈ audioExts)
      · cases ha : (load_audio_transcriber env a).1.audio_transcriber <;>
          simp [main_ui, hQ, hT, ha]
      · by_cases hI : (resolveMode m (strLower (splitext_ext fl.name)) = "Image Description"
            ∧ strLower (splitext_ext fl.name) ∈ imageExts)
        · cases hi : (load_image_description_generator env a).1.image_description_generator <;>
            simp [main_ui, hQ, hT, hI, hi]
        · simp [main_ui, hQ, hT, hI]

/-- C10: the stored credential is never reset by this layer: submitting an
empty sidebar input leaves it unchanged (and a stored truthy credential
stays truthy through any sidebar interaction), and none of the other
operations — the Q&A loader, the chat interface, the whole main UI — ever
writes the credential field. -/
theorem C10_credential_never_unset (env : Env) (s : SessionState) (a : Assistant)
    (api_key_input path m : String) (clicked : Bool) (prompt : Option String)
    (f : Option UploadedFile)
    (hkey : pyTruthyStr s.google_api_key = true) :
    (api_key_input = "" →
      (render_sidebar s a api_key_input clicked).1.google_api_key = s.google_api_key) ∧
    pyTruthyStr (render_sidebar s a api_key_input clicked).1.google_api_key = true ∧
    (load_pdf_chatbot env s a path).1.google_api_key = s.google_api_key ∧
    (render_pdf_chat_interface env s a path prompt).1.google_api_key = s.google_api_key ∧
    (main_ui env s a f m prompt).1.google_api_key = s.google_api_key := by
  refine ⟨?_, ?_, load_pdf_chatbot_key_eq env s a path,
    render_pdf_key_eq env s a path prompt, main_ui_key_eq env s a f m prompt⟩
  · intro hin
    subst hin
    cases clicked <;> simp [render_sidebar]
  · by_cases hin : api_key_input != ""
    · cases clicked <;> simp [render_sidebar, hin, pyTruthyStr]
    · cases clicked <;> simp [render_sidebar, hin, hkey]

/-- Witness for C10: the stored key survives an empty re-submission and a
full pass over the other operations. -/
theorem C10_credential_never_unset_w :
    (render_sidebar sW aW "" true).1.google_api_key = some "key-1" ∧
    pyTruthyStr (render_sidebar sW aW "" true).1.google_api_key = true ∧
    (main_ui envW sW aW (some ⟨"doc.pdf", "b"⟩) "Auto Detect" (some "hi")).1.google_api_key
      = some "key-1" := by
  have h := C10_credential_never_unset envW sW aW "" "temp/doc.pdf" "Auto Detect" true
    (some "hi") (some ⟨"doc.pdf", "b"⟩) (by decide)
  exact ⟨h.1 rfl, h.2.1, h.2.2.2.2⟩
